import Mathlib

/-!
Verification development for the moderation engine of a content-submission
bot (source: `src/modules/handlers/callback_handlers.py`).  The handler
module is embedded directly; the data layer it drives (`modules/data`:
`PendingPost.set_admin_vote`, `PublishedPost.set_user_vote`, `Report`),
the keyboard layer (`REACTION`, `update_approve_kb`, `update_vote_kb`) and
`post_util.send_post_to` are not part of the handler source and are
modelled from the specification, as marked on each definition.
-/

namespace SpottedDMI

/-- Python runtime error kinds that the handler code can raise.  Only
`KeyError` is ever caught by the dispatchers (`except KeyError`); the
other kinds escape the handler module. -/
inductive PErr
  | keyError
  | indexError
  | attrError
  | typeError
  deriving DecidableEq

/-- Result of running a piece of Python code: a value, or an uncaught
exception. -/
inductive PyResult (α : Type)
  | ok (a : α)
  | err (e : PErr)
  deriving DecidableEq

/-- Rendered inline keyboard, carrying the tally it was rendered from
(the renderer itself is an external pure collaborator per the spec). -/
inductive Kb
  | approveKb (votes : List (Int × Bool))
  | voteKb (votes : List (Int × String))
  | statsKb
  deriving DecidableEq

/-- Observable side effects the handlers request from the bot transport. -/
inductive Effect
  | answerCQ (text : Option String)
  | sendMessage (chatId : Int) (text : String)
  | publishChannel (chatId : Int) (msgId : Int)
  | showAdminsVotes (approve : Bool)
  | forwardMessage (toChat : Int) (fromChat : Int) (msgId : Int)
  | editText (chatId : Int) (msgId : Int) (text : String) (kb : Option Kb)
  | editMarkup (chatId : Int) (msgId : Int) (kb : Option Kb)
  | setUserData (msgId : Int)
  | logError (tag : String)
  | logWarning (tag : String)
  deriving DecidableEq

/-- PendingPost record (spec section 3): submitter id and the per-admin
vote map, represented as an association list of rows. -/
structure PendingPost where
  userId : Int
  votes : List (Int × Bool)
  deriving DecidableEq

/-- PublishedPost record (spec section 3): the per-voter reaction map. -/
structure PublishedPost where
  votes : List (Int × String)
  deriving DecidableEq

/-- The transactional Vote Store (spec section 2): canonical owner of
PendingPost / PublishedPost / Report records, plus the credited-user
table and the bot data used by the handlers.  `nextMsgId` models the
message-id sequence of the transport, so publishing is deterministic. -/
structure Store where
  pending : List ((Int × Int) × PendingPost)
  published : List ((Int × Int) × PublishedPost)
  reports : List (Int × Int × Int)
  credited : List Int
  botData : List ((Int × Int) × Int)
  nextMsgId : Int
  deriving DecidableEq

/-- Configuration consumed by the handlers (`config_map['meme']`). -/
structure Config where
  quorum : Int
  comments : Bool
  channelId : Int
  adminGroupId : Int
  deriving DecidableEq

/-- Outcomes of the external collaborators (notifier reachability,
admin-group delivery) and the read-only statistics queries; the engine
only observes their results. -/
structure Ext where
  notifyOk : Bool
  adminSendOk : Bool
  avgVotes : Int
  avgOf : String → Int
  maxVotes : Int × Int × String
  maxOf : String → Int × Int × String
  nPosts : Int
  nVotes : Int
  nVotesOf : String → Int

/-- The fields of `get_callback_info` that the handlers read. -/
structure CbInfo where
  chatId : Int
  messageId : Int
  senderId : Int
  username : Option String
  replyToMessageId : Int
  deriving DecidableEq

/-! ### Python string primitives

`str.split(",")` and slicing `s[n:]` are re-implemented over the
character list so that every use is kernel-computable. -/

/-- Auxiliary splitter: Python `split` keeps empty chunks. -/
def splitCommaAux : List Char → List Char → List String
  | [], acc => [String.mk acc.reverse]
  | c :: t, acc =>
      if c = ',' then String.mk acc.reverse :: splitCommaAux t []
      else splitCommaAux t (c :: acc)

/-- Python `data.split(",")`. -/
def splitComma (s : String) : List String :=
  splitCommaAux s.toList []

/-- Python `s[n:]`. -/
def pyDrop (s : String) (n : Nat) : String :=
  String.mk (s.toList.drop n)

/-! ### Store primitives (association-list rows) -/

/-- Row lookup by key. -/
def lookupKey {α : Type} : List ((Int × Int) × α) → (Int × Int) → Option α
  | [], _ => none
  | e :: t, k => if e.1 = k then some e.2 else lookupKey t k

/-- Order-preserving row update. -/
def updateKey {α : Type} : List ((Int × Int) × α) → (Int × Int) → α → List ((Int × Int) × α)
  | [], _, _ => []
  | e :: t, k, v => if e.1 = k then (k, v) :: t else e :: updateKey t k v

/-- Row deletion. -/
def removeKey {α : Type} : List ((Int × Int) × α) → (Int × Int) → List ((Int × Int) × α)
  | [], _ => []
  | e :: t, k => if e.1 = k then removeKey t k else e :: removeKey t k

/-! ### Approval Engine (modelled from the spec) -/

/-- Vote-row lookup for an admin. -/
def lookupVote : List (Int × Bool) → Int → Option Bool
  | [], _ => none
  | e :: t, a => if e.1 = a then some e.2 else lookupVote t a

/-- Overwrite an admin's existing vote row in place. -/
def overwriteVote : List (Int × Bool) → Int → Bool → List (Int × Bool)
  | [], _, _ => []
  | e :: t, a, v => if e.1 = a then (a, v) :: overwriteVote t a v else e :: overwriteVote t a v

/-- Number of votes in a given direction. -/
def countDir (dir : Bool) : List (Int × Bool) → Nat
  | [] => 0
  | e :: t => (if e.2 = dir then 1 else 0) + countDir dir t

/-- Modelled from the spec: `PendingPost.set_admin_vote` of the missing
`modules/data` layer (spec 4.1).  A duplicate same-direction click
changes nothing and yields the source's `-1` sentinel (the overloaded
`no_change` encoding documented in spec 9); otherwise the admin's entry
is inserted or overwritten and the recomputed count of the voted
direction is returned. -/
def set_admin_vote (admin : Int) (approve : Bool) (p : PendingPost) : Int × PendingPost :=
  match lookupVote p.votes admin with
  | some v =>
      if v = approve then (-1, p)
      else
        let votes := overwriteVote p.votes admin approve
        ((countDir approve votes : Nat), { p with votes := votes })
  | none =>
      let votes := p.votes ++ [(admin, approve)]
      ((countDir approve votes : Nat), { p with votes := votes })

/-! ### Reaction Tally (modelled from the spec) -/

/-- Reaction-row lookup for a voter. -/
def lookupCat : List (Int × String) → Int → Option String
  | [], _ => none
  | e :: t, v => if e.1 = v then some e.2 else lookupCat t v

/-- Remove every reaction row of a voter. -/
def removeVoter (v : Int) : List (Int × String) → List (Int × String)
  | [] => []
  | e :: t => if e.1 = v then removeVoter v t else e :: removeVoter v t

/-- Number of reaction rows held by a voter. -/
def voterEntries (v : Int) : List (Int × String) → Nat
  | [] => 0
  | e :: t => (if e.1 = v then 1 else 0) + voterEntries v t

/-- Modelled from the spec: `PublishedPost.set_user_vote` of the missing
`modules/data` layer (spec 4.2).  Voting the currently held category
retracts it (returns `false`); any other call installs the category as
the voter's sole entry (returns `true`). -/
def set_user_vote (voter : Int) (cat : String) (p : PublishedPost) : Bool × PublishedPost :=
  match lookupCat p.votes voter with
  | some c =>
      if c = cat then (false, { votes := removeVoter voter p.votes })
      else (true, { votes := removeVoter voter p.votes ++ [(voter, cat)] })
  | none => (true, { votes := p.votes ++ [(voter, cat)] })

/-! ### Report Dedup Guard (modelled from the spec) -/

/-- Modelled from the spec: `file_report` (spec 4.3) — probe the identity
tuple `(reporter, channel, message)`; report `true` if already present,
otherwise create the record and report `false`. -/
def file_report (u : Int) (ch : Int) (msg : Int) (reports : List (Int × Int × Int)) :
    Bool × List (Int × Int × Int) :=
  if (u, ch, msg) ∈ reports then (true, reports)
  else (false, (u, ch, msg) :: reports)

/-- Modelled from the spec: `Report.get_post_report` — existence probe by
identity tuple, used by the report handler in the source. -/
def get_post_report (u : Int) (ch : Int) (msg : Int) (reports : List (Int × Int × Int)) : Bool :=
  (u, ch, msg) ∈ reports

/-! ### Keyboard layer (modelled from the spec) -/

/-- Modelled from the spec: the fixed reaction enumeration `REACTION` of
the missing `modules/utils/keyboard_util.py`, keyed by the categories the
vote handler accepts. -/
def REACTION : List (String × String) :=
  [("0", "pollice su"), ("1", "pollice giu"), ("2", "risata"), ("3", "rabbia"), ("4", "cuore")]

/-- Dictionary lookup in `REACTION`; `none` is Python's `KeyError`. -/
def reactionOf (c : String) : Option String :=
  (REACTION.lookup c)

/-! ### `send_post_to` (modelled from the spec) -/

/-- Modelled from the spec: `send_post_to(..., destination="channel")` of
the missing `modules/utils/post_util.py` — publish the message to the
configured channel and create the PublishedPost record atomically,
returning its identity. -/
def send_post_to_channel (cfg : Config) (st : Store) : ((Int × Int) × Store) × Effect :=
  let key : Int × Int := (cfg.channelId, st.nextMsgId)
  ((key,
    { st with
      published := (key, ⟨[]⟩) :: st.published
      nextMsgId := st.nextMsgId + 1 }),
   Effect.publishChannel cfg.channelId st.nextMsgId)

/-- Modelled from the spec: `send_post_to(..., destination="admin")` —
when the submission's type is accepted, create the PendingPost record in
the admin group with an empty vote map. -/
def send_post_to_admin (cfg : Config) (ext : Ext) (st : Store) (sender : Int) :
    Bool × Store :=
  if ext.adminSendOk then
    (true,
     { st with
       pending := ((cfg.adminGroupId, st.nextMsgId), ⟨sender, []⟩) :: st.pending
       nextMsgId := st.nextMsgId + 1 })
  else (false, st)

/-! ### User preference table (collaborator of `settings_callback`) -/

/-- Modelled from the spec: `User.become_anonym` — remove the user from
the credited table; reports whether the user was already anonymous. -/
def become_anonym (st : Store) (u : Int) : Bool × Store :=
  if u ∈ st.credited then (false, { st with credited := st.credited.filter (fun x => x ≠ u) })
  else (true, st)

/-- Modelled from the spec: `User.become_credited` — add the user to the
credited table; reports whether the user was already credited. -/
def become_credited (st : Store) (u : Int) : Bool × Store :=
  if u ∈ st.credited then (true, st)
  else (false, { st with credited := u :: st.credited })

/-! ### Conversation-state signals -/

/-- Modelled from the spec: the outer conversation state `STATE['end']`
(an opaque signal propagated unchanged; its value is immaterial). -/
def STATE_end : Int := -1

/-- Modelled from the spec: the outer conversation state
`STATE['reporting_spot']`. -/
def STATE_reporting_spot : Int := 1

/-! ### Handler results -/

/-- What a region handler produces: the store it committed, the effects
it requested in order, and either the `(text, reply_markup, output)`
triple or the uncaught exception it raised. -/
structure HRes where
  store : Store
  effects : List Effect
  out : PyResult (Option String × Option Kb × Option Int)
  deriving DecidableEq

/-- What a dispatcher produces: the store, the effects (including any
message edit), and either the value returned to the conversation
machinery or the uncaught exception. -/
structure MRes where
  store : Store
  effects : List Effect
  out : PyResult (Option Int)
  deriving DecidableEq

/-! ### Region handlers (embedded from
`src/modules/handlers/callback_handlers.py`) -/

/-- `old_reactions` (source lines 15–29): legacy-compatibility rewriting
of the two deprecated reaction tokens; identity elsewhere. -/
def old_reactions (data : String) : String :=
  if data = "meme_vote_yes" then "meme_vote,1"
  else if data = "meme_vote_no" then "meme_vote,0"
  else data

/-- `confirm_callback` (source lines 67–96). -/
def confirm_callback (cfg : Config) (ext : Ext) (st : Store) (info : CbInfo)
    (arg : String) : HRes :=
  if arg = "yes" then
    let (ok, st1) := send_post_to_admin cfg ext st info.senderId
    let text :=
      if ok then
        "Il tuo post è in fase di valutazione\nUna volta pubblicato, lo potrai trovare su @Spotted_DMI"
      else
        "Si è verificato un problema\nAssicurati che il tipo di post sia fra quelli consentiti"
    ⟨st1, [], .ok (some text, none, some STATE_end)⟩
  else if arg = "no" then
    ⟨st, [], .ok (some "Va bene, alla prossima", none, some STATE_end)⟩
  else
    ⟨st, [Effect.logError "confirm_callback"], .ok (none, none, some STATE_end)⟩

/-- `settings_callback` (source lines 99–136). -/
def settings_callback (st : Store) (info : CbInfo) (arg : String) : HRes :=
  if arg = "anonimo" then
    let (already, st1) := become_anonym st info.senderId
    let text :=
      if already then "Sei già anonimo"
      else "La tua preferenza è stata aggiornata\nOra i tuoi post saranno anonimi"
    ⟨st1, [], .ok (some text, none, none)⟩
  else if arg = "credit" then
    let (already, st1) := become_credited st info.senderId
    let base :=
      if already then "Sei già creditato nei post\n"
      else "La tua preferenza è stata aggiornata\n"
    let text :=
      match info.username with
      | some name => base ++ "I tuoi post avranno come credit @" ++ name
      | none =>
          base ++ "ATTENZIONE:\nNon hai nessun username associato al tuo account telegram\nSe non lo aggiungi, non sarai creditato"
    ⟨st1, [], .ok (some text, none, none)⟩
  else
    ⟨st, [Effect.logError "settings_callback"], .ok (none, none, none)⟩

/-- `approve_yes_callback` (source lines 139–181): load the pending post
(silent no-op when absent), record the approval, and on reaching the
configured quorum publish to the channel, notify the submitter
(non-fatally), show the admin tally and delete the pending record;
below quorum a changed vote yields only an updated approval keyboard. -/
def approve_yes_callback (cfg : Config) (ext : Ext) (st : Store) (info : CbInfo) : HRes :=
  match lookupKey st.pending (info.chatId, info.messageId) with
  | none => ⟨st, [], .ok (none, none, none)⟩
  | some p =>
      let nv := set_admin_vote info.senderId true p
      let n := nv.1
      let p' := nv.2
      let st1 :=
        if n = -1 then st
        else { st with pending := updateKey st.pending (info.chatId, info.messageId) p' }
      if cfg.quorum ≤ n then
        let pub := send_post_to_channel cfg st1
        let pkey := pub.1.1
        let st2 := pub.1.2
        let st3 :=
          if cfg.comments then { st2 with botData := (pkey, p.userId) :: st2.botData }
          else st2
        let enote :=
          if ext.notifyOk then
            [Effect.sendMessage p.userId "Il tuo ultimo post è stato pubblicato su @Spotted_DMI"]
          else [Effect.logWarning "Notifying the user on approve_yes"]
        let st4 := { st3 with pending := removeKey st3.pending (info.chatId, info.messageId) }
        ⟨st4, Effect.answerCQ none :: pub.2 :: enote ++ [Effect.showAdminsVotes true],
          .ok (none, none, none)⟩
      else if n ≠ -1 then
        ⟨st1, [Effect.answerCQ none], .ok (none, some (Kb.approveKb p'.votes), none)⟩
      else
        ⟨st1, [Effect.answerCQ none], .ok (none, none, none)⟩

/-- `approve_no_callback` (source lines 184–220): the rejection path —
on quorum, notify the submitter (non-fatally), show the admin tally and
delete the pending record; no channel publication. -/
def approve_no_callback (cfg : Config) (ext : Ext) (st : Store) (info : CbInfo) : HRes :=
  match lookupKey st.pending (info.chatId, info.messageId) with
  | none => ⟨st, [], .ok (none, none, none)⟩
  | some p =>
      let nv := set_admin_vote info.senderId false p
      let n := nv.1
      let p' := nv.2
      let st1 :=
        if n = -1 then st
        else { st with pending := updateKey st.pending (info.chatId, info.messageId) p' }
      if cfg.quorum ≤ n then
        let enote :=
          if ext.notifyOk then
            [Effect.sendMessage p.userId
              "Il tuo ultimo post è stato rifiutato\nPuoi controllare le regole con /rules"]
          else [Effect.logWarning "Notifying the user on approve_no"]
        let st2 := { st1 with pending := removeKey st1.pending (info.chatId, info.messageId) }
        ⟨st2, Effect.answerCQ none :: enote ++ [Effect.showAdminsVotes false],
          .ok (none, none, none)⟩
      else if n ≠ -1 then
        ⟨st1, [Effect.answerCQ none], .ok (none, some (Kb.approveKb p'.votes), none)⟩
      else
        ⟨st1, [Effect.answerCQ none], .ok (none, none, none)⟩

/-- `vote_callback` (source lines 223–243): the published post is loaded
without a `None` check, so an absent record raises (`AttributeError` on
`None.set_user_vote`); otherwise the reaction is toggled, the voter is
acknowledged with the reaction name (`REACTION[arg]` raises `KeyError`
on an unknown category, before the acknowledgement is sent) and the
updated vote keyboard is returned. -/
def vote_callback (st : Store) (info : CbInfo) (arg : String) : HRes :=
  match lookupKey st.published (info.chatId, info.messageId) with
  | none => ⟨st, [], .err .attrError⟩
  | some p =>
      let wp := set_user_vote info.senderId arg p
      let st1 := { st with published := updateKey st.published (info.chatId, info.messageId) wp.2 }
      match reactionOf arg with
      | none => ⟨st1, [], .err .keyError⟩
      | some r =>
          let txt := if wp.1 then "Hai messo un " ++ r else "Hai tolto il " ++ r
          ⟨st1, [Effect.answerCQ (some txt)],
            .ok (none, some (Kb.voteKb wp.2.votes), none)⟩

/-- `report_spot_callback` (source lines 249–278): probe the report
record for `(sender, channel, reported message)`; an existing report
ends the flow, otherwise the bot opens the private reason-collection
conversation.  The handler itself creates no Report record. -/
def report_spot_callback (cfg : Config) (st : Store) (info : CbInfo) : HRes :=
  let amid := info.replyToMessageId
  if get_post_report info.senderId cfg.channelId amid st.reports then
    ⟨st, [Effect.answerCQ (some "Hai già segnalato questo spot.")],
      .ok (none, none, some STATE_end)⟩
  else
    ⟨st,
      [Effect.answerCQ (some "Segnala in privato tramite il bot."),
       Effect.forwardMessage info.senderId info.chatId amid,
       Effect.sendMessage info.senderId
         "Scrivi il motivo della segnalazione del post, altrimenti digita /cancel",
       Effect.setUserData amid],
      .ok (none, none, some STATE_reporting_spot)⟩

/-! ### Dispatchers -/

/-- The command names `cmd` for which `globals()` of the handler module
contains a function named `cmd + "_callback"` — the reflective registry
both dispatchers consult. -/
def registered_commands : List String :=
  ["meme", "confirm", "settings", "approve_yes", "approve_no", "vote", "report_spot",
   "stats", "avg", "max", "tot", "close"]

/-- Command extraction used by `meme_callback`: first comma chunk with
the `"meme_"` prefix sliced off (`data[0][5:]`). -/
def decode_parts_command (parts : List String) : String :=
  pyDrop (parts.headD "") 5

/-- The command `meme_callback` dispatches on, after legacy rewriting. -/
def decode_command (data : String) : String :=
  decode_parts_command (splitComma (old_reactions data))

/-- Dispatch of `meme_callback` to a region handler once the callable
has been resolved; registered names whose signature does not match the
region-handler convention raise `TypeError` when called. -/
def call_handler (cfg : Config) (ext : Ext) (st : Store) (info : CbInfo)
    (cmd : String) (arg : String) : HRes :=
  if cmd = "confirm" then confirm_callback cfg ext st info arg
  else if cmd = "settings" then settings_callback st info arg
  else if cmd = "approve_yes" then approve_yes_callback cfg ext st info
  else if cmd = "approve_no" then approve_no_callback cfg ext st info
  else if cmd = "vote" then vote_callback st info arg
  else if cmd = "report_spot" then report_spot_callback cfg st info
  else ⟨st, [], .err .typeError⟩

/-- The body of `meme_callback` after the comma split (source lines
45–63).  Python resolves the callable before evaluating `data[1]`, so an
unregistered command raises `KeyError` (caught: logged, no edit) while a
registered command with no argument raises `IndexError` (uncaught — only
`KeyError` is caught).  A `KeyError` escaping the handler is also caught
and leaves the message unedited; a returned text or markup is applied as
exactly one message edit. -/
def meme_decoded (cfg : Config) (ext : Ext) (st : Store) (info : CbInfo)
    (parts : List String) : MRes :=
  let cmd := decode_parts_command parts
  if cmd ∈ registered_commands then
    match (parts.drop 1).head? with
    | none => ⟨st, [], .err .indexError⟩
    | some arg =>
        let r := call_handler cfg ext st info cmd arg
        match r.out with
        | .err .keyError =>
            ⟨r.store, r.effects ++ [Effect.logError "meme_callback"], .ok none⟩
        | .err e => ⟨r.store, r.effects, .err e⟩
        | .ok (some t, kb, out) =>
            ⟨r.store, r.effects ++ [Effect.editText info.chatId info.messageId t kb], .ok out⟩
        | .ok (none, some kb, out) =>
            ⟨r.store, r.effects ++ [Effect.editMarkup info.chatId info.messageId (some kb)],
              .ok out⟩
        | .ok (none, none, out) => ⟨r.store, r.effects, .ok out⟩
  else
    ⟨st, [Effect.logError "meme_callback"], .ok none⟩

/-- `meme_callback` (source lines 32–63): legacy rewriting is applied to
the raw token, which is then comma-split and dispatched. -/
def meme_callback (cfg : Config) (ext : Ext) (st : Store) (info : CbInfo)
    (data : String) : MRes :=
  meme_decoded cfg ext st info (splitComma (old_reactions data))

/-- `avg_callback` (source lines 308–325). -/
def avg_callback (ext : Ext) (arg : String) : PyResult (Option String) :=
  if arg = "votes" then
    .ok (some ("Gli spot ricevono in media " ++ toString ext.avgVotes ++ " voti"))
  else
    match reactionOf arg with
    | none => .err .keyError
    | some r =>
        .ok (some ("Gli spot ricevono in media " ++ toString (ext.avgOf arg) ++ " " ++ r))

/-- `max_callback` (source lines 328–347). -/
def max_callback (ext : Ext) (arg : String) : PyResult (Option String) :=
  if arg = "votes" then
    .ok (some ("Lo spot con più voti ne ha " ++ toString ext.maxVotes.1 ++
      "\nLo trovi a questo link: https://t.me/c/" ++ pyDrop ext.maxVotes.2.2 4 ++ "/" ++
      toString ext.maxVotes.2.1))
  else
    match reactionOf arg with
    | none => .err .keyError
    | some r =>
        .ok (some ("Lo spot con più " ++ r ++ " ne ha " ++ toString (ext.maxOf arg).1 ++
          "\nLo trovi a questo link: https://t.me/c/" ++ pyDrop (ext.maxOf arg).2.2 4 ++ "/" ++
          toString (ext.maxOf arg).2.1))

/-- `tot_callback` (source lines 350–370). -/
def tot_callback (ext : Ext) (arg : String) : PyResult (Option String) :=
  if arg = "posts" then
    .ok (some ("Sono stati pubblicati " ++ toString ext.nPosts ++
      " spot nel canale finora.\nPotresti ampliare questo numero..."))
  else if arg = "votes" then
    .ok (some ("Il totale dei voti ammonta a " ++ toString ext.nVotes))
  else
    match reactionOf arg with
    | none => .err .keyError
    | some r =>
        .ok (some ("Il totale dei " ++ r ++ " ammonta a " ++ toString (ext.nVotesOf arg)))

/-- `close_callback` (source lines 373–380). -/
def close_callback : PyResult (Option String) :=
  .ok none

/-- Dispatch of `stats_callback` to a statistics handler once the
callable has been resolved. -/
def stats_call (ext : Ext) (cmd : String) (arg : String) : PyResult (Option String) :=
  if cmd = "avg" then avg_callback ext arg
  else if cmd = "max" then max_callback ext arg
  else if cmd = "tot" then tot_callback ext arg
  else if cmd = "close" then close_callback
  else .err .typeError

/-- Command extraction used by `stats_callback` (`data[0][6:]`). -/
def stats_decode_command (parts : List String) : String :=
  pyDrop (parts.headD "") 6

/-- `stats_callback` (source lines 281–304): acknowledge the query, then
resolve and call the statistics handler; `KeyError` (unknown command or
unknown reaction) is logged and aborts with no edit, a missing argument
raises `IndexError` (uncaught), a text answer edits the message with the
stats keyboard, and an empty answer removes the reply markup. -/
def stats_callback (ext : Ext) (st : Store) (info : CbInfo) (data : String) : MRes :=
  let parts := splitComma data
  let cmd := stats_decode_command parts
  if cmd ∈ registered_commands then
    match (parts.drop 1).head? with
    | none => ⟨st, [Effect.answerCQ none], .err .indexError⟩
    | some arg =>
        match stats_call ext cmd arg with
        | .err .keyError =>
            ⟨st, [Effect.answerCQ none, Effect.logError "stats_callback"], .ok none⟩
        | .err e => ⟨st, [Effect.answerCQ none], .err e⟩
        | .ok (some t) =>
            ⟨st, [Effect.answerCQ none,
              Effect.editText info.chatId info.messageId t (some Kb.statsKb)], .ok none⟩
        | .ok none =>
            ⟨st, [Effect.answerCQ none,
              Effect.editMarkup info.chatId info.messageId none], .ok none⟩
  else
    ⟨st, [Effect.answerCQ none, Effect.logError "stats_callback"], .ok none⟩

/-! ### Sample values used by the concrete witnesses -/

/-- Sample external-collaborator outcomes: everything reachable. -/
def ext0 : Ext :=
  ⟨true, true, 0, fun _ => 0, (0, 0, "-100123"), fun _ => (0, 0, "-100123"), 0, 0, fun _ => 0⟩

/-- Sample configuration with the claims' quorum of 2. -/
def cfg0 : Config := ⟨2, false, -1001, -500⟩

/-- Sample callback info: admin-group chat `-500`, message `10`,
sender `7`, replying to message `3`. -/
def info0 : CbInfo := ⟨-500, 10, 7, none, 3⟩

/-- A store with no records at all. -/
def emptyStore : Store := ⟨[], [], [], [], [], 100⟩

/-- A store holding one pending post (submitter 42) at the sample
identity, already approved by admin 1. -/
def stPend1 : Store := ⟨[((-500, 10), ⟨42, [(1, true)]⟩)], [], [], [], [], 100⟩

/-- Callback info for admin `a` acting on pending post `(g, m)`. -/
def mkInfo (g m a : Int) : CbInfo := ⟨g, m, a, none, 0⟩

/-- A store holding exactly one fresh pending post `(g, m)` with
submitter `u` and no votes. -/
def pendingStore (g m u : Int) : Store := ⟨[((g, m), ⟨u, []⟩)], [], [], [], [], 100⟩

/-- Apply a sequence of `set_user_vote` calls `(voter, category)`. -/
def runVotes (calls : List (Int × String)) (p : PublishedPost) : PublishedPost :=
  calls.foldl (fun q c => (set_user_vote c.1 c.2 q).2) p

/-- Apply a sequence of `file_report` calls `(reporter, channel, message)`. -/
def run_reports (calls : List (Int × Int × Int)) (rs : List (Int × Int × Int)) :
    List (Int × Int × Int) :=
  calls.foldl (fun r t => (file_report t.1 t.2.1 t.2.2 r).2) rs

/-- First serialized approve call on a fresh pending post (for the
exactly-once promotion scenario): admin `a1` approves post `(g, m)` of
submitter `u` under quorum 2. -/
def promoCall1 (g m u a1 : Int) : HRes :=
  approve_yes_callback cfg0 ext0 (pendingStore g m u) (mkInfo g m a1)

/-- Second serialized approve call: admin `a2` approves on the store the
first call committed. -/
def promoCall2 (g m u a1 a2 : Int) : HRes :=
  approve_yes_callback cfg0 ext0 (promoCall1 g m u a1).store (mkInfo g m a2)

/-- Third serialized approve call: admin `a3` votes after the promotion. -/
def promoCall3 (g m u a1 a2 a3 : Int) : HRes :=
  approve_yes_callback cfg0 ext0 (promoCall2 g m u a1 a2).store (mkInfo g m a3)

/-! ### Store and vote-row lemmas -/

/-- A deleted key is no longer found. -/
theorem lookupKey_removeKey_self {α : Type} (l : List ((Int × Int) × α)) (k : Int × Int) :
    lookupKey (removeKey l k) k = none := by
  induction l with
  | nil => rfl
  | cons e t ih =>
      by_cases h : e.1 = k
      · simpa [removeKey, h] using ih
      · simp [removeKey, lookupKey, h, ih]

/-- Updating a present key makes the new value the one found. -/
theorem lookupKey_updateKey_self {α : Type} (l : List ((Int × Int) × α)) (k : Int × Int)
    (v w : α) (h : lookupKey l k = some w) :
    lookupKey (updateKey l k v) k = some v := by
  induction l with
  | nil => simp [lookupKey] at h
  | cons e t ih =>
      by_cases he : e.1 = k
      · simp [updateKey, he, lookupKey]
      · simp only [lookupKey, if_neg he] at h
        simp [updateKey, lookupKey, he, ih h]

/-- Appending a vote row for an absent admin makes it the one found. -/
theorem lookupVote_append_self (l : List (Int × Bool)) (a : Int) (v : Bool)
    (h : lookupVote l a = none) : lookupVote (l ++ [(a, v)]) a = some v := by
  induction l with
  | nil => simp [lookupVote]
  | cons e t ih =>
      by_cases he : e.1 = a
      · simp [lookupVote, he] at h
      · simp only [lookupVote, if_neg he] at h
        simp [lookupVote, he, ih h]

/-- Overwriting a present admin's vote makes the new vote the one found. -/
theorem lookupVote_overwrite_self (l : List (Int × Bool)) (a : Int) (v w : Bool)
    (h : lookupVote l a = some w) : lookupVote (overwriteVote l a v) a = some v := by
  induction l with
  | nil => simp [lookupVote] at h
  | cons e t ih =>
      by_cases he : e.1 = a
      · simp [overwriteVote, he, lookupVote]
      · simp only [lookupVote, if_neg he] at h
        simp [overwriteVote, lookupVote, he, ih h]

/-- After `set_admin_vote`, the admin's recorded vote is the one cast. -/
theorem set_admin_vote_lookup (a : Int) (v : Bool) (p : PendingPost) :
    lookupVote (set_admin_vote a v p).2.votes a = some v := by
  cases hl : lookupVote p.votes a with
  | none =>
      simp only [set_admin_vote, hl]
      exact lookupVote_append_self _ _ _ hl
  | some w =>
      by_cases hw : w = v
      · subst hw
        simp only [set_admin_vote, hl, if_pos rfl]
        exact hl
      · simp only [set_admin_vote, hl, if_neg hw]
        exact lookupVote_overwrite_self _ _ _ _ hl

/-- The count returned by `set_admin_vote` is either the `-1` sentinel or
a genuine (non-negative) tally. -/
theorem set_admin_vote_cases (a : Int) (v : Bool) (p : PendingPost) :
    (set_admin_vote a v p).1 = -1 ∨ 0 ≤ (set_admin_vote a v p).1 := by
  cases hl : lookupVote p.votes a with
  | none =>
      right
      simp [set_admin_vote, hl]
  | some w =>
      by_cases hw : w = v
      · left; simp [set_admin_vote, hl, hw]
      · right; simp [set_admin_vote, hl, hw]

/-- When the vote changed, the returned count is the recomputed tally of
the voted direction over the persisted rows. -/
theorem set_admin_vote_count (a : Int) (v : Bool) (p : PendingPost)
    (h : (set_admin_vote a v p).1 ≠ -1) :
    (set_admin_vote a v p).1 = ((countDir v (set_admin_vote a v p).2.votes : Nat) : Int) := by
  cases hl : lookupVote p.votes a with
  | none => simp [set_admin_vote, hl]
  | some w =>
      by_cases hw : w = v
      · simp [set_admin_vote, hl, hw] at h
      · simp [set_admin_vote, hl, hw]

/-! ### Claim theorems -/

/-- C9: the ingress adapter `old_reactions` maps exactly the two
deprecated spellings to canonical comma-separated form — `"meme_vote_yes"`
to `"meme_vote,1"` and `"meme_vote_no"` to `"meme_vote,0"` — and is the
identity on every other input string; `meme_callback` applies it to the
token before the comma-split decoding. -/
theorem legacy_token_rewriting :
    old_reactions "meme_vote_yes" = "meme_vote,1" ∧
    old_reactions "meme_vote_no" = "meme_vote,0" ∧
    (∀ s : String, s ≠ "meme_vote_yes" → s ≠ "meme_vote_no" → old_reactions s = s) ∧
    (∀ cfg ext st info data,
      meme_callback cfg ext st info data =
        meme_decoded cfg ext st info (splitComma (old_reactions data))) := by
  refine ⟨by decide, by decide, ?_, ?_⟩
  · intro s h1 h2
    simp [old_reactions, h1, h2]
  · intro cfg ext st info data
    rfl

/-- Witness for C9: a non-legacy token passes through unchanged. -/
theorem legacy_token_rewriting_witness :
    old_reactions "meme_confirm,yes" = "meme_confirm,yes" :=
  legacy_token_rewriting.2.2.1 "meme_confirm,yes" (by decide) (by decide)

/-- C10 fails on the code: a registered command with the argument
omitted (no comma in the token) makes the dispatcher evaluate `data[1]`,
which raises `IndexError`; only `KeyError` is caught, so the router
crashes instead of dispatching.  This evaluates both dispatchers at such
tokens: `meme_callback` on `"meme_approve_yes"` (even with the pending
post present) and `stats_callback` on `"stats_close"`. -/
theorem commaless_token_raises :
    meme_callback cfg0 ext0 stPend1 info0 "meme_approve_yes" =
      ⟨stPend1, [], .err .indexError⟩ ∧
    stats_callback ext0 emptyStore info0 "stats_close" =
      ⟨emptyStore, [Effect.answerCQ none], .err .indexError⟩ := by
  exact ⟨by decide, by decide⟩

/-- C5 fails on the code at `vote_callback`: the approve handlers treat
an absent pending post as a silent no-op (no mutation, no effect, no
failure), but `vote_callback` dereferences the loaded published post
without a `None` check, so a vote on an absent identity raises
`AttributeError` — an uncaught failure rather than a silent no-op. -/
theorem notfound_vote_crash :
    approve_yes_callback cfg0 ext0 emptyStore info0 =
      ⟨emptyStore, [], .ok (none, none, none)⟩ ∧
    approve_no_callback cfg0 ext0 emptyStore info0 =
      ⟨emptyStore, [], .ok (none, none, none)⟩ ∧
    meme_callback cfg0 ext0 emptyStore info0 "meme_vote,0" =
      ⟨emptyStore, [], .err .attrError⟩ := by
  exact ⟨by decide, by decide, by decide⟩

/-- C8: a token whose decoded command has no registered handler is
caught (`KeyError` from the reflective lookup), logged, and produces no
message edit and no state change; a vote with a reaction category
outside the fixed enumeration raises `KeyError` inside the handler,
which the dispatcher catches and logs, leaving the message text and
control layout unedited. -/
theorem malformed_input_leaves_ui_unchanged :
    (∀ cfg ext st info data,
      decode_command data ∉ registered_commands →
      meme_callback cfg ext st info data =
        ⟨st, [Effect.logError "meme_callback"], .ok none⟩) ∧
    (∀ cfg ext st info arg p,
      reactionOf arg = none →
      lookupKey st.published (info.chatId, info.messageId) = some p →
      meme_decoded cfg ext st info ["meme_vote", arg] =
        ⟨{ st with published := (updateKey st.published (info.chatId, info.messageId)
            (set_user_vote info.senderId arg p).2) },
          [Effect.logError "meme_callback"], .ok none⟩) := by
  constructor
  · intro cfg ext st info data h
    simp only [decode_command] at h
    simp only [meme_callback, meme_decoded, if_neg h]
  · intro cfg ext st info arg p hr hp
    have hcmd : decode_parts_command ["meme_vote", arg] = "vote" := rfl
    simp only [meme_decoded, hcmd]
    rw [if_pos (by decide : "vote" ∈ registered_commands)]
    simp only [List.drop, List.head?]
    have hch : call_handler cfg ext st info "vote" arg = vote_callback st info arg := rfl
    rw [hch]
    simp only [vote_callback, hp, hr, List.nil_append]

/-- Witness for C8: an unregistered command token is logged and edits
nothing. -/
theorem malformed_input_witness :
    meme_callback cfg0 ext0 emptyStore info0 "meme_foo,1" =
      ⟨emptyStore, [Effect.logError "meme_callback"], .ok none⟩ :=
  malformed_input_leaves_ui_unchanged.1 cfg0 ext0 emptyStore info0 "meme_foo,1" (by decide)

/-- C2: for a present pending post, once the count returned by
`set_admin_vote` reaches the quorum the handler performs the transition —
the pending record is deleted and, on the approve path, the published
record is created in the same handler invocation — and returns the
terminal all-`None` triple (no updated tally control); below quorum a
changed vote instead returns an updated approval keyboard carrying the
new tally, with the pending record persisted and not deleted. -/
theorem threshold_transition (cfg : Config) (ext : Ext) (st : Store) (info : CbInfo)
    (p : PendingPost)
    (hp : lookupKey st.pending (info.chatId, info.messageId) = some p)
    (hq : 1 ≤ cfg.quorum) :
    (cfg.quorum ≤ (set_admin_vote info.senderId true p).1 →
      lookupKey (approve_yes_callback cfg ext st info).store.pending
          (info.chatId, info.messageId) = none ∧
      lookupKey (approve_yes_callback cfg ext st info).store.published
          (cfg.channelId, st.nextMsgId) = some ⟨[]⟩ ∧
      (approve_yes_callback cfg ext st info).out = .ok (none, none, none)) ∧
    ((set_admin_vote info.senderId true p).1 ≠ -1 →
      (set_admin_vote info.senderId true p).1 < cfg.quorum →
      (approve_yes_callback cfg ext st info).out =
        .ok (none, some (Kb.approveKb (set_admin_vote info.senderId true p).2.votes), none) ∧
      (set_admin_vote info.senderId true p).1 =
        ((countDir true (set_admin_vote info.senderId true p).2.votes : Nat) : Int) ∧
      lookupKey (approve_yes_callback cfg ext st info).store.pending
          (info.chatId, info.messageId) = some (set_admin_vote info.senderId true p).2) ∧
    (cfg.quorum ≤ (set_admin_vote info.senderId false p).1 →
      lookupKey (approve_no_callback cfg ext st info).store.pending
          (info.chatId, info.messageId) = none ∧
      (approve_no_callback cfg ext st info).store.published = st.published ∧
      (approve_no_callback cfg ext st info).out = .ok (none, none, none)) ∧
    ((set_admin_vote info.senderId false p).1 ≠ -1 →
      (set_admin_vote info.senderId false p).1 < cfg.quorum →
      (approve_no_callback cfg ext st info).out =
        .ok (none, some (Kb.approveKb (set_admin_vote info.senderId false p).2.votes), none) ∧
      lookupKey (approve_no_callback cfg ext st info).store.pending
          (info.chatId, info.messageId) = some (set_admin_vote info.senderId false p).2) := by
  refine ⟨?_, ?_, ?_, ?_⟩
  · intro hge
    have hne : (set_admin_vote info.senderId true p).1 ≠ -1 := by omega
    simp only [approve_yes_callback, hp, if_neg hne, if_pos hge, send_post_to_channel]
    refine ⟨?_, ?_, ?_⟩
    · by_cases hc : cfg.comments <;> simp [hc, lookupKey_removeKey_self]
    · by_cases hc : cfg.comments <;> simp [hc, lookupKey]
    · by_cases hc : cfg.comments <;> simp [hc]
  · intro hne hlt
    simp only [approve_yes_callback, hp, if_neg hne, if_neg (not_le.mpr hlt), if_pos hne]
    exact ⟨by trivial, set_admin_vote_count _ _ _ hne, lookupKey_updateKey_self _ _ _ _ hp⟩
  · intro hge
    have hne : (set_admin_vote info.senderId false p).1 ≠ -1 := by omega
    simp only [approve_no_callback, hp, if_neg hne, if_pos hge]
    exact ⟨lookupKey_removeKey_self _ _, by trivial, by trivial⟩
  · intro hne hlt
    simp only [approve_no_callback, hp, if_neg hne, if_neg (not_le.mpr hlt), if_pos hne]
    exact ⟨by trivial, lookupKey_updateKey_self _ _ _ _ hp⟩

/-- Witness for C2: with quorum 2 and one prior approval, a second
approval deletes the pending record, creates the published record and
returns the terminal triple. -/
theorem threshold_transition_witness :
    lookupKey (approve_yes_callback cfg0 ext0 stPend1 info0).store.pending
        (info0.chatId, info0.messageId) = none ∧
    lookupKey (approve_yes_callback cfg0 ext0 stPend1 info0).store.published
        (cfg0.channelId, stPend1.nextMsgId) = some ⟨[]⟩ ∧
    (approve_yes_callback cfg0 ext0 stPend1 info0).out = .ok (none, none, none) :=
  (threshold_transition cfg0 ext0 stPend1 info0 ⟨42, [(1, true)]⟩ (by decide)
    (by decide)).1 (by decide)

/-- C3: a second identical approval is a no-op — at the engine level the
repeated `set_admin_vote(p, a, true)` returns the `-1` no-change sentinel
(`no_change = true`) and leaves the post record, hence the approve
count, unchanged; at the handler level, when the first call did not
reach quorum, the repeated call leaves the store untouched (no
deletion), requests no notification and returns the all-`None` triple
(no UI update). -/
theorem idempotent_toggle (cfg : Config) (ext : Ext) (st : Store) (info : CbInfo)
    (p : PendingPost)
    (hp : lookupKey st.pending (info.chatId, info.messageId) = some p) :
    ((set_admin_vote info.senderId true ((set_admin_vote info.senderId true p).2)).1 = -1 ∧
     (set_admin_vote info.senderId true ((set_admin_vote info.senderId true p).2)).2 =
       (set_admin_vote info.senderId true p).2) ∧
    ((set_admin_vote info.senderId true p).1 ≠ -1 →
     (set_admin_vote info.senderId true p).1 < cfg.quorum →
     approve_yes_callback cfg ext (approve_yes_callback cfg ext st info).store info =
       ⟨(approve_yes_callback cfg ext st info).store, [Effect.answerCQ none],
        .ok (none, none, none)⟩) := by
  have hdup : ∀ q : PendingPost, lookupVote q.votes info.senderId = some true →
      set_admin_vote info.senderId true q = (-1, q) := by
    intro q hl
    simp [set_admin_vote, hl]
  constructor
  · have h2 := hdup _ (set_admin_vote_lookup info.senderId true p)
    exact ⟨by rw [h2], by rw [h2]⟩
  · intro hne hlt
    have hnn : 0 ≤ (set_admin_vote info.senderId true p).1 := by
      rcases set_admin_vote_cases info.senderId true p with h | h
      · exact absurd h hne
      · exact h
    have hq1 : ¬ cfg.quorum ≤ (-1 : Int) := by omega
    have hst : (approve_yes_callback cfg ext st info).store =
        { st with pending := (updateKey st.pending (info.chatId, info.messageId)
            (set_admin_vote info.senderId true p).2) } := by
      simp only [approve_yes_callback, hp, if_neg hne, if_neg (not_le.mpr hlt), if_pos hne]
    have hlook : lookupKey (approve_yes_callback cfg ext st info).store.pending
        (info.chatId, info.messageId) = some (set_admin_vote info.senderId true p).2 := by
      rw [hst]
      exact lookupKey_updateKey_self _ _ _ _ hp
    have h2 := hdup _ (set_admin_vote_lookup info.senderId true p)
    rw [hst] at hlook ⊢
    simp only [approve_yes_callback, hlook, h2, if_pos rfl, if_neg hq1]
    simp

/-- Witness for C3: admin 7's second approval of the sample pending post
changes nothing and returns the terminal no-op triple. -/
theorem idempotent_toggle_witness :
    approve_yes_callback ⟨3, false, -1001, -500⟩ ext0
        (approve_yes_callback ⟨3, false, -1001, -500⟩ ext0 stPend1 info0).store info0 =
      ⟨(approve_yes_callback ⟨3, false, -1001, -500⟩ ext0 stPend1 info0).store,
       [Effect.answerCQ none], .ok (none, none, none)⟩ :=
  (idempotent_toggle ⟨3, false, -1001, -500⟩ ext0 stPend1 info0 ⟨42, [(1, true)]⟩
    (by decide)).2 (by decide) (by decide)

/-- C1: with quorum 2, two approve calls on the same fresh pending post
by distinct admins — in either order, since the admins are arbitrary —
perform exactly one promotion: the first call deletes nothing and creates
nothing, the second call deletes the pending record and creates the one
published record, and a third admin's subsequent vote on the same
identity observes `NotFound`: it returns the silent no-op triple with no
effect and no store change. -/
theorem exactly_once_promotion (g m u a1 a2 a3 : Int) (h : a1 ≠ a2) :
    ((promoCall1 g m u a1).store.pending = [((g, m), ⟨u, [(a1, true)]⟩)] ∧
     (promoCall1 g m u a1).store.published = [] ∧
     (promoCall1 g m u a1).out = .ok (none, some (Kb.approveKb [(a1, true)]), none)) ∧
    ((promoCall2 g m u a1 a2).store.pending = [] ∧
     (promoCall2 g m u a1 a2).store.published = [((cfg0.channelId, 100), ⟨[]⟩)] ∧
     (promoCall2 g m u a1 a2).out = .ok (none, none, none)) ∧
    promoCall3 g m u a1 a2 a3 =
      ⟨(promoCall2 g m u a1 a2).store, [], .ok (none, none, none)⟩ := by
  have e1 : approve_yes_callback cfg0 ext0 (pendingStore g m u) (mkInfo g m a1) =
      ⟨⟨[((g, m), ⟨u, [(a1, true)]⟩)], [], [], [], [], 100⟩, [Effect.answerCQ none],
       .ok (none, some (Kb.approveKb [(a1, true)]), none)⟩ := by
    simp [approve_yes_callback, pendingStore, mkInfo, cfg0, lookupKey, set_admin_vote,
      lookupVote, countDir, updateKey]
  have e2 : approve_yes_callback cfg0 ext0
      (⟨[((g, m), ⟨u, [(a1, true)]⟩)], [], [], [], [], 100⟩ : Store) (mkInfo g m a2) =
      ⟨⟨[], [(((-1001 : Int), (100 : Int)), ⟨[]⟩)], [], [], [], 101⟩,
       [Effect.answerCQ none, Effect.publishChannel (-1001) 100,
        Effect.sendMessage u "Il tuo ultimo post è stato pubblicato su @Spotted_DMI",
        Effect.showAdminsVotes true],
       .ok (none, none, none)⟩ := by
    simp [approve_yes_callback, mkInfo, cfg0, ext0, lookupKey, set_admin_vote,
      lookupVote, countDir, updateKey, removeKey, send_post_to_channel, h]
  have e3 : approve_yes_callback cfg0 ext0
      (⟨[], [(((-1001 : Int), (100 : Int)), ⟨[]⟩)], [], [], [], 101⟩ : Store)
      (mkInfo g m a3) =
      ⟨⟨[], [(((-1001 : Int), (100 : Int)), ⟨[]⟩)], [], [], [], 101⟩, [],
       .ok (none, none, none)⟩ := rfl
  simp only [promoCall3, promoCall2, promoCall1]
  simp only [e1]
  simp only [e2]
  simp only [e3]
  simp [cfg0]

/-- Witness for C1: admins 1 and 2 approve post `(-500, 10)` of user 42;
admin 3 then observes the silent `NotFound` no-op. -/
theorem exactly_once_promotion_witness :
    ((promoCall1 (-500) 10 42 1).store.pending =
        [(((-500 : Int), (10 : Int)), ⟨42, [(1, true)]⟩)] ∧
     (promoCall1 (-500) 10 42 1).store.published = [] ∧
     (promoCall1 (-500) 10 42 1).out = .ok (none, some (Kb.approveKb [(1, true)]), none)) ∧
    ((promoCall2 (-500) 10 42 1 2).store.pending = [] ∧
     (promoCall2 (-500) 10 42 1 2).store.published = [((cfg0.channelId, 100), ⟨[]⟩)] ∧
     (promoCall2 (-500) 10 42 1 2).out = .ok (none, none, none)) ∧
    promoCall3 (-500) 10 42 1 2 3 =
      ⟨(promoCall2 (-500) 10 42 1 2).store, [], .ok (none, none, none)⟩ :=
  exactly_once_promotion (-500) 10 42 1 2 3 (by decide)

/-- C6: whether the submitter notification succeeds or raises is
invisible to the state transition — both approve handlers commit the
same store and return the same triple in either case; and on the
promotion/rejection path with the notification failing, the failure is
logged as a warning while the pending record is still deleted (and, on
the approve path, the published record still created). -/
theorem notification_failure_not_rolled_back (cfg : Config) (e : Ext) (st : Store)
    (info : CbInfo) :
    ((approve_yes_callback cfg { e with notifyOk := true } st info).store =
       (approve_yes_callback cfg { e with notifyOk := false } st info).store ∧
     (approve_yes_callback cfg { e with notifyOk := true } st info).out =
       (approve_yes_callback cfg { e with notifyOk := false } st info).out) ∧
    ((approve_no_callback cfg { e with notifyOk := true } st info).store =
       (approve_no_callback cfg { e with notifyOk := false } st info).store ∧
     (approve_no_callback cfg { e with notifyOk := true } st info).out =
       (approve_no_callback cfg { e with notifyOk := false } st info).out) ∧
    (∀ p, lookupKey st.pending (info.chatId, info.messageId) = some p →
      cfg.quorum ≤ (set_admin_vote info.senderId true p).1 →
      Effect.logWarning "Notifying the user on approve_yes" ∈
        (approve_yes_callback cfg { e with notifyOk := false } st info).effects ∧
      lookupKey (approve_yes_callback cfg { e with notifyOk := false } st info).store.pending
        (info.chatId, info.messageId) = none ∧
      lookupKey (approve_yes_callback cfg { e with notifyOk := false } st info).store.published
        (cfg.channelId, st.nextMsgId) = some ⟨[]⟩) ∧
    (∀ p, lookupKey st.pending (info.chatId, info.messageId) = some p →
      cfg.quorum ≤ (set_admin_vote info.senderId false p).1 →
      Effect.logWarning "Notifying the user on approve_no" ∈
        (approve_no_callback cfg { e with notifyOk := false } st info).effects ∧
      lookupKey (approve_no_callback cfg { e with notifyOk := false } st info).store.pending
        (info.chatId, info.messageId) = none) := by
  refine ⟨?_, ?_, ?_, ?_⟩
  · cases hl : lookupKey st.pending (info.chatId, info.messageId) with
    | none => simp [approve_yes_callback, hl]
    | some p =>
        by_cases h1 : (set_admin_vote info.senderId true p).1 = -1
        · by_cases h2 : cfg.quorum ≤ (-1 : Int)
          · by_cases h3 : cfg.comments <;>
              simp [approve_yes_callback, hl, h1, h2, h3, send_post_to_channel]
          · simp [approve_yes_callback, hl, h1, h2]
        · by_cases h2 : cfg.quorum ≤ (set_admin_vote info.senderId true p).1
          · by_cases h3 : cfg.comments <;>
              simp [approve_yes_callback, hl, h1, h2, h3, send_post_to_channel]
          · simp [approve_yes_callback, hl, h1, h2]
  · cases hl : lookupKey st.pending (info.chatId, info.messageId) with
    | none => simp [approve_no_callback, hl]
    | some p =>
        by_cases h1 : (set_admin_vote info.senderId false p).1 = -1
        · by_cases h2 : cfg.quorum ≤ (-1 : Int) <;>
            simp [approve_no_callback, hl, h1, h2]
        · by_cases h2 : cfg.quorum ≤ (set_admin_vote info.senderId false p).1 <;>
            simp [approve_no_callback, hl, h1, h2]
  · intro p hp hge
    by_cases h1 : (set_admin_vote info.senderId true p).1 = -1
    · rw [h1] at hge
      by_cases h3 : cfg.comments <;>
        simp [approve_yes_callback, hp, h1, hge, h3, send_post_to_channel,
          lookupKey_removeKey_self, lookupKey]
    · by_cases h3 : cfg.comments <;>
        simp [approve_yes_callback, hp, h1, hge, h3, send_post_to_channel,
          lookupKey_removeKey_self, lookupKey]
  · intro p hp hge
    by_cases h1 : (set_admin_vote info.senderId false p).1 = -1
    · rw [h1] at hge
      simp [approve_no_callback, hp, h1, hge, lookupKey_removeKey_self]
    · simp [approve_no_callback, hp, h1, hge, lookupKey_removeKey_self]

/-- Witness for C6: with quorum reached on the sample store and the
submitter unreachable, the warning is logged, the pending record is
deleted and the published record exists. -/
theorem notification_failure_witness :
    Effect.logWarning "Notifying the user on approve_yes" ∈
      (approve_yes_callback cfg0 { ext0 with notifyOk := false } stPend1 info0).effects ∧
    lookupKey (approve_yes_callback cfg0 { ext0 with notifyOk := false } stPend1
        info0).store.pending (info0.chatId, info0.messageId) = none ∧
    lookupKey (approve_yes_callback cfg0 { ext0 with notifyOk := false } stPend1
        info0).store.published (cfg0.channelId, stPend1.nextMsgId) = some ⟨[]⟩ :=
  (notification_failure_not_rolled_back cfg0 ext0 stPend1 info0).2.2.1
    ⟨42, [(1, true)]⟩ (by decide) (by decide)

/-! ### Reaction Tally lemmas (for C4) -/

/-- Removing a voter's rows leaves none of that voter's entries. -/
theorem voterEntries_removeVoter_self (v : Int) (l : List (Int × String)) :
    voterEntries v (removeVoter v l) = 0 := by
  induction l with
  | nil => rfl
  | cons e t ih =>
      by_cases h : e.1 = v
      · simpa [removeVoter, h] using ih
      · simp [removeVoter, voterEntries, h, ih]

/-- Removing any voter's rows never increases another voter's count. -/
theorem voterEntries_removeVoter_le (v w : Int) (l : List (Int × String)) :
    voterEntries v (removeVoter w l) ≤ voterEntries v l := by
  induction l with
  | nil => exact Nat.le_refl _
  | cons e t ih =>
      by_cases h : e.1 = w
      · simp only [removeVoter, if_pos h, voterEntries]
        exact Nat.le_trans ih (Nat.le_add_left _ _)
      · simp only [removeVoter, if_neg h, voterEntries]
        exact Nat.add_le_add_left ih _

/-- Entry counts add over concatenation. -/
theorem voterEntries_append (v : Int) (l1 l2 : List (Int × String)) :
    voterEntries v (l1 ++ l2) = voterEntries v l1 + voterEntries v l2 := by
  induction l1 with
  | nil => simp [voterEntries]
  | cons e t ih => simp [voterEntries, ih, Nat.add_assoc]

/-- A removed voter is no longer found. -/
theorem lookupCat_removeVoter_self (v : Int) (l : List (Int × String)) :
    lookupCat (removeVoter v l) v = none := by
  induction l with
  | nil => rfl
  | cons e t ih =>
      by_cases h : e.1 = v
      · simpa [removeVoter, h] using ih
      · simp [removeVoter, lookupCat, h, ih]

/-- Appending a row for an absent voter makes it the one found. -/
theorem lookupCat_append_self (l : List (Int × String)) (v : Int) (c : String)
    (h : lookupCat l v = none) : lookupCat (l ++ [(v, c)]) v = some c := by
  induction l with
  | nil => simp [lookupCat]
  | cons e t ih =>
      by_cases he : e.1 = v
      · simp [lookupCat, he] at h
      · simp only [lookupCat, if_neg he] at h
        simp [lookupCat, he, ih h]

/-- An absent voter has zero entries. -/
theorem voterEntries_eq_zero_of_lookup_none (l : List (Int × String)) (w : Int)
    (h : lookupCat l w = none) : voterEntries w l = 0 := by
  induction l with
  | nil => rfl
  | cons e t ih =>
      by_cases he : e.1 = w
      · simp [lookupCat, he] at h
      · simp only [lookupCat, if_neg he] at h
        simp [voterEntries, he, ih h]

/-- One `set_user_vote` call preserves the at-most-one-entry bound for
every voter. -/
theorem set_user_vote_entries (w : Int) (c : String) (p : PublishedPost) (v : Int)
    (h : voterEntries v p.votes ≤ 1) :
    voterEntries v (set_user_vote w c p).2.votes ≤ 1 := by
  cases hl : lookupCat p.votes w with
  | none =>
      simp only [set_user_vote, hl]
      rw [voterEntries_append]
      by_cases hv : w = v
      · subst hv
        rw [voterEntries_eq_zero_of_lookup_none _ _ hl]
        simp [voterEntries]
      · simp only [voterEntries]
        rw [if_neg fun e => hv e]
        omega
  | some d =>
      by_cases hd : d = c
      · simp only [set_user_vote, hl, if_pos hd]
        exact Nat.le_trans (voterEntries_removeVoter_le v w p.votes) h
      · simp only [set_user_vote, hl, if_neg hd]
        rw [voterEntries_append]
        by_cases hv : w = v
        · subst hv
          rw [voterEntries_removeVoter_self]
          simp [voterEntries]
        · have := voterEntries_removeVoter_le v w p.votes
          simp only [voterEntries]
          rw [if_neg fun e => hv e]
          omega

/-- Any sequence of calls preserves the at-most-one-entry bound. -/
theorem runVotes_entries (calls : List (Int × String)) (p : PublishedPost) (v : Int)
    (h : voterEntries v p.votes ≤ 1) : voterEntries v (runVotes calls p).votes ≤ 1 := by
  induction calls generalizing p with
  | nil => exact h
  | cons c t ih =>
      show voterEntries v (runVotes t ((set_user_vote c.1 c.2 p).2)).votes ≤ 1
      exact ih _ (set_user_vote_entries c.1 c.2 p v h)

/-- A call with a category the voter does not currently hold casts it:
returns `true` and installs the entry. -/
theorem set_user_vote_true (v : Int) (c : String) (p : PublishedPost)
    (h : lookupCat p.votes v ≠ some c) :
    (set_user_vote v c p).1 = true ∧ lookupCat (set_user_vote v c p).2.votes v = some c := by
  cases hl : lookupCat p.votes v with
  | none =>
      simp only [set_user_vote, hl]
      exact ⟨by trivial, lookupCat_append_self _ _ _ hl⟩
  | some d =>
      have hd : d ≠ c := by
        intro e
        exact h (by rw [hl, e])
      simp only [set_user_vote, hl, if_neg hd]
      exact ⟨by trivial, lookupCat_append_self _ _ _ (lookupCat_removeVoter_self _ _)⟩

/-- A call with the category the voter currently holds retracts it:
returns `false` and removes the entry. -/
theorem set_user_vote_false (v : Int) (c : String) (p : PublishedPost)
    (h : lookupCat p.votes v = some c) :
    (set_user_vote v c p).1 = false ∧ lookupCat (set_user_vote v c p).2.votes v = none := by
  simp only [set_user_vote, h, if_pos rfl]
  exact ⟨by trivial, lookupCat_removeVoter_self _ _⟩

/-- Counterexample to C4 as stated: for a voter already holding the
category, two same-category calls are retract-then-recast, so the second
call returns `true`, not `false`. -/
theorem reaction_double_call_counterexample :
    (set_user_vote 7 "0" ((set_user_vote 7 "0" (⟨[(7, "0")]⟩ : PublishedPost)).2)).1 = true := by
  decide

/-- C4, amended: after any sequence of `set_user_vote` calls a voter
holds at most one active category; when the voter does not already hold
the category, calling twice in a row with it net-cancels — the first
call returns `true` and installs it, the second returns `false` and
removes it (in particular a different category replaces the prior one
and returns `true`); when the voter already held the category, the two
calls retract and re-cast it — returning `false` then `true` — leaving
the voter's entry as it started. -/
theorem reaction_exclusivity (v : Int) (c : String) (p : PublishedPost)
    (calls : List (Int × String)) (hw : voterEntries v p.votes ≤ 1) :
    voterEntries v (runVotes calls p).votes ≤ 1 ∧
    (lookupCat p.votes v ≠ some c →
      (set_user_vote v c p).1 = true ∧
      lookupCat (set_user_vote v c p).2.votes v = some c ∧
      (set_user_vote v c ((set_user_vote v c p).2)).1 = false ∧
      lookupCat (set_user_vote v c ((set_user_vote v c p).2)).2.votes v = none) ∧
    (lookupCat p.votes v = some c →
      (set_user_vote v c p).1 = false ∧
      lookupCat (set_user_vote v c p).2.votes v = none ∧
      (set_user_vote v c ((set_user_vote v c p).2)).1 = true ∧
      lookupCat (set_user_vote v c ((set_user_vote v c p).2)).2.votes v = some c) := by
  refine ⟨runVotes_entries calls p v hw, ?_, ?_⟩
  · intro hne
    obtain ⟨h1, h2⟩ := set_user_vote_true v c p hne
    obtain ⟨h3, h4⟩ := set_user_vote_false v c _ h2
    exact ⟨h1, h2, h3, h4⟩
  · intro heq
    obtain ⟨h1, h2⟩ := set_user_vote_false v c p heq
    have h2' : lookupCat (set_user_vote v c p).2.votes v ≠ some c := by
      rw [h2]
      exact fun e => Option.noConfusion e
    obtain ⟨h3, h4⟩ := set_user_vote_true v c _ h2'
    exact ⟨h1, h2, h3, h4⟩

/-- Witness for C4 (amended): voter 7 on a fresh post, with an
interleaved vote by voter 8, keeps at most one entry, and a first cast
returns `true`. -/
theorem reaction_exclusivity_witness :
    voterEntries 7 (runVotes [(7, "0"), (8, "1"), (7, "2")] (⟨[]⟩ : PublishedPost)).votes ≤ 1 ∧
    (set_user_vote 7 "0" (⟨[]⟩ : PublishedPost)).1 = true :=
  ⟨(reaction_exclusivity 7 "0" ⟨[]⟩ [(7, "0"), (8, "1"), (7, "2")] (by decide)).1,
   ((reaction_exclusivity 7 "0" ⟨[]⟩ [(7, "0"), (8, "1"), (7, "2")] (by decide)).2.1
      (by decide)).1⟩

/-! ### Report Dedup lemmas (for C7) -/

/-- After `file_report` the identity tuple is recorded. -/
theorem mem_file_report (u ch msg : Int) (rs : List (Int × Int × Int)) :
    (u, ch, msg) ∈ (file_report u ch msg rs).2 := by
  by_cases h : (u, ch, msg) ∈ rs <;> simp [file_report, h]

/-- `file_report` never discards an existing record. -/
theorem file_report_mono (t : Int × Int × Int) (u ch msg : Int)
    (rs : List (Int × Int × Int)) (h : t ∈ rs) : t ∈ (file_report u ch msg rs).2 := by
  by_cases hm : (u, ch, msg) ∈ rs <;> simp [file_report, hm, h]

/-- No sequence of report calls discards an existing record. -/
theorem run_reports_mono (calls : List (Int × Int × Int)) (t : Int × Int × Int)
    (rs : List (Int × Int × Int)) (h : t ∈ rs) : t ∈ run_reports calls rs := by
  induction calls generalizing rs with
  | nil => exact h
  | cons c cs ih =>
      show t ∈ run_reports cs (file_report c.1 c.2.1 c.2.2 rs).2
      exact ih _ (file_report_mono t _ _ _ _ h)

/-- A report by a different identity tuple does not create this one. -/
theorem file_report_not_mem (t : Int × Int × Int) (u ch msg : Int)
    (rs : List (Int × Int × Int)) (ht : t ∉ rs) (hne : t ≠ (u, ch, msg)) :
    t ∉ (file_report u ch msg rs).2 := by
  by_cases hm : (u, ch, msg) ∈ rs <;> simp [file_report, hm, ht, hne]

/-- Reports by other identity tuples never create this one. -/
theorem run_reports_not_mem (calls : List (Int × Int × Int)) (t : Int × Int × Int)
    (rs : List (Int × Int × Int)) (ht : t ∉ rs) (h : ∀ c ∈ calls, t ≠ c) :
    t ∉ run_reports calls rs := by
  induction calls generalizing rs with
  | nil => exact ht
  | cons c cs ih =>
      show t ∉ run_reports cs (file_report c.1 c.2.1 c.2.2 rs).2
      refine ih _ (file_report_not_mem t _ _ _ _ ht ?_) ?_
      · have hc : (c.1, c.2.1, c.2.2) = c := rfl
        rw [hc]
        exact h c (by simp)
      · intro x hx
        exact h x (by simp [hx])

/-- A recorded identity tuple makes `file_report` report `true`. -/
theorem file_report_true (u ch msg : Int) (rs : List (Int × Int × Int))
    (h : (u, ch, msg) ∈ rs) : (file_report u ch msg rs).1 = true := by
  simp [file_report, h]

/-- An absent identity tuple makes `file_report` report `false`. -/
theorem file_report_false (u ch msg : Int) (rs : List (Int × Int × Int))
    (h : (u, ch, msg) ∉ rs) : (file_report u ch msg rs).1 = false := by
  simp [file_report, h]

/-- C7: for a reporter `u` and post `(ch, msg)` not yet reported by `u`,
`file_report` returns `false` on the first call (after any reports by
other identity tuples) and `true` on every subsequent call, regardless
of any interleaved reports by other reporters. -/
theorem report_dedup (u ch msg : Int) (rs0 pre mid : List (Int × Int × Int))
    (h0 : (u, ch, msg) ∉ rs0)
    (hpre : ∀ c ∈ pre, (u, ch, msg) ≠ c) :
    (file_report u ch msg (run_reports pre rs0)).1 = false ∧
    (file_report u ch msg
      (run_reports mid (file_report u ch msg (run_reports pre rs0)).2)).1 = true := by
  have hnot : (u, ch, msg) ∉ run_reports pre rs0 := run_reports_not_mem pre _ rs0 h0 hpre
  refine ⟨file_report_false _ _ _ _ hnot, ?_⟩
  exact file_report_true _ _ _ _ (run_reports_mono mid _ _ (mem_file_report _ _ _ _))

/-- Witness for C7: reporter 7 reports post `(-1001, 3)` after reporter 8
did and before reporter 9 does: first call `false`, repeat `true`. -/
theorem report_dedup_witness :
    (file_report 7 (-1001) 3 (run_reports [(8, -1001, 3)] [])).1 = false ∧
    (file_report 7 (-1001) 3 (run_reports [(9, -1001, 3)]
      (file_report 7 (-1001) 3 (run_reports [(8, -1001, 3)] [])).2)).1 = true :=
  report_dedup 7 (-1001) 3 [] [(8, -1001, 3)] [(9, -1001, 3)] (by decide) (by decide)

end SpottedDMI

